import Mathlib

/-!
Verification of the DecentralizedHoneypot traffic-analysis core.

Shallow embedding of:
* `src/services/ai/predictor.ts` — `calculatePatternScore`,
  `detectAttackPattern`, `simpleRuleBasedClassification`;
* `src/services/traffic/analyzer.ts` — `calculateMetrics` (burst loop and
  empty-window branch);
* `src/services/alerts/alertService.ts` — `raiseAlert` with cooldown,
  storage and subscriber notification (Node `EventEmitter.emit` semantics:
  listeners run synchronously in order, a throwing listener aborts `emit`);
* `src/honeypots/base.ts` — `logTraffic` per-key aggregation.

JavaScript numbers are modelled by `JsNum`: a rational for finite values
plus `inf`, `ninf` and `nan`, with JS division (`x/0 = Infinity` for
`x > 0`, `0/0 = NaN`), comparison (`NaN` incomparable) and
`Math.min`/`Math.max` (`NaN` propagates) semantics.  All source
arithmetic here is exact on rationals, so the idealization is faithful.
-/

namespace Honeypot

/-- JS number value: finite rational, +Infinity, -Infinity or NaN. -/
inductive JsNum where
  | fin : ℚ → JsNum
  | inf : JsNum
  | ninf : JsNum
  | nan : JsNum
deriving DecidableEq, Repr

namespace JsNum

/-- JS negation. -/
def jneg : JsNum → JsNum
  | fin a => fin (-a)
  | inf => ninf
  | ninf => inf
  | nan => nan

/-- JS addition. -/
def jadd : JsNum → JsNum → JsNum
  | nan, _ => nan
  | _, nan => nan
  | inf, ninf => nan
  | ninf, inf => nan
  | inf, _ => inf
  | _, inf => inf
  | ninf, _ => ninf
  | _, ninf => ninf
  | fin a, fin b => fin (a + b)

/-- JS subtraction. -/
def jsub (a b : JsNum) : JsNum := jadd a (jneg b)

/-- JS division (`+0` only; the sources never produce `-0`). -/
def jdiv : JsNum → JsNum → JsNum
  | nan, _ => nan
  | _, nan => nan
  | inf, inf => nan
  | inf, ninf => nan
  | ninf, inf => nan
  | ninf, ninf => nan
  | inf, fin b => if 0 ≤ b then inf else ninf
  | ninf, fin b => if 0 ≤ b then ninf else inf
  | fin _, inf => fin 0
  | fin _, ninf => fin 0
  | fin a, fin b =>
      if b = 0 then (if 0 < a then inf else if a < 0 then ninf else nan)
      else fin (a / b)

/-- JS strict `<` (false whenever an operand is NaN). -/
def jlt : JsNum → JsNum → Bool
  | nan, _ => false
  | _, nan => false
  | ninf, ninf => false
  | ninf, _ => true
  | _, ninf => false
  | inf, _ => false
  | _, inf => true
  | fin a, fin b => decide (a < b)

/-- JS `Math.min` (NaN propagates). -/
def jmin : JsNum → JsNum → JsNum
  | nan, _ => nan
  | _, nan => nan
  | ninf, _ => ninf
  | _, ninf => ninf
  | inf, b => b
  | a, inf => a
  | fin a, fin b => fin (min a b)

/-- JS `Math.max` (NaN propagates). -/
def jmax : JsNum → JsNum → JsNum
  | nan, _ => nan
  | _, nan => nan
  | inf, _ => inf
  | _, inf => inf
  | ninf, b => b
  | a, ninf => a
  | fin a, fin b => fin (max a b)

end JsNum

/-- The value is a finite number in the closed interval `[0,1]`. -/
def In01 (x : JsNum) : Prop := ∃ q : ℚ, x = JsNum.fin q ∧ 0 ≤ q ∧ q ≤ 1

/-- Honeypot protocols (`'http' | 'dns' | 'smtp'` in the sources). -/
inductive Protocol where
  | http
  | dns
  | smtp
deriving DecidableEq, Repr

/-- `TrafficData` from `src/types`: per-key window snapshot fed to the
classifier.  Optional fields mirror the optional TS fields accessed with
`?.` in the sources. -/
structure TrafficData where
  protocol : Protocol
  requestCount : ℕ
  timeWindow : ℕ
  uniqueIps : Option (List String)
  paths : Option (List String)
  queryTypes : Option (List String)
  timestamp : ℕ
deriving DecidableEq, Repr

/-- Helper for `strIncludes`: does `needle` occur as a contiguous
sublist of the second argument? -/
def charsInclude (needle : List Char) : List Char → Bool
  | [] => needle.isEmpty
  | c :: rest => needle.isPrefixOf (c :: rest) || charsInclude needle rest

/-- JS `haystack.includes(needle)` on strings (substring containment). -/
def strIncludes (hay needle : String) : Bool :=
  charsInclude needle.toList hay.toList

/-- `uniqueIps` count: array length, set size, or `1` when absent
(`predictor.ts` lines 142-144; the model stores a list either way). -/
def uniqueIpsCount (td : TrafficData) : ℕ :=
  match td.uniqueIps with
  | some ips => ips.length
  | none => 1

/-- `rps = requestCount / (timeWindow / 1000)` with JS division semantics
(`predictor.ts` lines 58, 84 and 147: no divide-by-zero guard). -/
def rpsOf (td : TrafficData) : JsNum :=
  JsNum.jdiv (JsNum.fin (td.requestCount : ℚ))
    (JsNum.fin ((td.timeWindow : ℚ) / 1000))

/-- `ipRatio = requestCount > 0 ? uniqueIpsCount / requestCount : 1`
(`predictor.ts` line 150). -/
def ipRatioOf (td : TrafficData) : ℚ :=
  if td.requestCount > 0 then (uniqueIpsCount td : ℚ) / (td.requestCount : ℚ)
  else 1

/-- `calculatePatternScore` (`predictor.ts` lines 56-76): burst threshold
10 rps, sustained threshold 5 rps. -/
def calculatePatternScore (td : TrafficData) : JsNum :=
  let rps := rpsOf td
  let burstScore :=
    if JsNum.jlt (JsNum.fin 10) rps then
      JsNum.jdiv (JsNum.jsub rps (JsNum.fin 10)) (JsNum.fin 10)
    else JsNum.fin 0
  let sustainedScore :=
    if JsNum.jlt (JsNum.fin 5) rps then
      JsNum.jdiv (JsNum.jsub rps (JsNum.fin 5)) (JsNum.fin (10 - 5))
    else JsNum.fin 0
  JsNum.jmax burstScore sustainedScore

/-- All list elements equal the first one; JS
`arr.every(p => p === arr[0])`, vacuously true on the empty array. -/
def allEqHead (l : List String) : Bool :=
  l.all fun p => p == l.headD ""

/-- Result of `detectAttackPattern`. -/
structure PatternAnalysis where
  pattern : String
  confidence : JsNum
  indicators : List String
deriving DecidableEq, Repr

/-- Protocol-specific indicator strings collected by `detectAttackPattern`
(`predictor.ts` lines 89-114). -/
def patternIndicators (td : TrafficData) : List String :=
  match td.protocol with
  | Protocol.http =>
      (match td.paths with
       | some ps =>
           (if ps.any (fun p =>
                strIncludes p "admin" || strIncludes p "wp-" ||
                strIncludes p ".php")
            then ["Targeting sensitive endpoints"] else []) ++
           (if allEqHead ps then ["Single endpoint targeting"] else [])
       | none => [])
  | Protocol.dns =>
      (match td.queryTypes with
       | some qs =>
           (if qs.contains "ANY" then ["DNS amplification attempt"] else []) ++
           (if allEqHead qs then ["Single query type pattern"] else [])
       | none => [])
  | Protocol.smtp =>
      if JsNum.jlt (JsNum.fin 2) (rpsOf td) then ["High email send rate"]
      else []

/-- `detectAttackPattern` (`predictor.ts` lines 78-136). -/
def detectAttackPattern (td : TrafficData) : PatternAnalysis :=
  let patternScore := calculatePatternScore td
  let indicators := patternIndicators td
  let pc : String × JsNum :=
    if JsNum.jlt (JsNum.fin (8/10)) patternScore then ("ddos", patternScore)
    else if indicators.length > 0 then
      ("targeted", JsNum.fin (6/10 + (indicators.length : ℚ) * (1/10)))
    else if JsNum.jlt (JsNum.fin (4/10)) patternScore then
      ("suspicious", patternScore)
    else ("normal", JsNum.fin 0)
  ⟨pc.1, JsNum.jmin pc.2 (JsNum.fin 1), indicators⟩

/-- Per-protocol RPS thresholds (`predictor.ts` lines 175-179). -/
structure Thresholds where
  normal : ℚ
  suspicious : ℚ
  attack : ℚ

/-- Threshold table; the TS lookup `thresholds[protocol] ?? thresholds.http`
is total on the three-valued protocol enum. -/
def thresholdsFor : Protocol → Thresholds
  | Protocol.http => ⟨5, 10, 20⟩
  | Protocol.dns => ⟨3, 8, 15⟩
  | Protocol.smtp => ⟨2, 5, 10⟩

/-- The low-IP-diversity condition `ipRatio < 0.1 && requestCount > 10`
(`predictor.ts` line 168). -/
def lowDiversityCond (td : TrafficData) : Prop :=
  ipRatioOf td < 1/10 ∧ td.requestCount > 10

instance (td : TrafficData) : Decidable (lowDiversityCond td) := by
  unfold lowDiversityCond; infer_instance

/-- Confidence after the IP-ratio adjustment (`predictor.ts` lines
167-172): `confidence = Math.min(confidence + 0.2, 1)` when
`ipRatio < 0.1 && requestCount > 10`, applied to the pattern-analysis
confidence before the RPS classification. -/
def confAfterIpAdjust (td : TrafficData) : JsNum :=
  let c := (detectAttackPattern td).confidence
  if lowDiversityCond td then
    JsNum.jmin (JsNum.jadd c (JsNum.fin (2/10))) (JsNum.fin 1)
  else c

/-- The RPS-based reclassification step (`predictor.ts` lines 183-192),
returning `(attackType, confidence, details.reason)` after it. -/
def rpsClassification (td : TrafficData) : String × JsNum × Option String :=
  let rps := rpsOf td
  let t := thresholdsFor td.protocol
  if JsNum.jlt (JsNum.fin t.attack) rps then
    ("ddos",
     JsNum.jmin (JsNum.jdiv (JsNum.jsub rps (JsNum.fin t.attack))
       (JsNum.fin t.attack)) (JsNum.fin 1),
     some "High request rate")
  else if JsNum.jlt (JsNum.fin t.suspicious) rps then
    ("suspicious",
     JsNum.jdiv (JsNum.jsub rps (JsNum.fin t.suspicious))
       (JsNum.fin (t.attack - t.suspicious)),
     some "Elevated request rate")
  else
    ((detectAttackPattern td).pattern, confAfterIpAdjust td,
     if lowDiversityCond td then some "Low IP diversity" else none)

/-- `AttackClassification` output, with the `details` flags the claims
refer to lifted into named fields. -/
structure AttackClassification where
  attackType : String
  confidence : JsNum
  reason : Option String
  ipDiversityLow : Bool
  sensitiveEndpoints : Bool
  dnsAmplification : Bool
  spamPattern : Bool
  indicators : List String
deriving DecidableEq, Repr

/-- `simpleRuleBasedClassification` (`predictor.ts` lines 138-226). -/
def simpleRuleBasedClassification (td : TrafficData) : AttackClassification :=
  let t := thresholdsFor td.protocol
  let rc := rpsClassification td
  let lowDiv := decide (lowDiversityCond td)
  let inds := (detectAttackPattern td).indicators
  match td.protocol with
  | Protocol.http =>
      let sens :=
        match td.paths with
        | some ps => ps.any fun p =>
            strIncludes p "admin" || strIncludes p "login"
        | none => false
      { attackType := rc.1,
        confidence :=
          if sens then
            JsNum.jmin (JsNum.jadd rc.2.1 (JsNum.fin (1/10))) (JsNum.fin 1)
          else rc.2.1,
        reason := rc.2.2, ipDiversityLow := lowDiv,
        sensitiveEndpoints := sens, dnsAmplification := false,
        spamPattern := false, indicators := inds }
  | Protocol.dns =>
      let amp :=
        match td.queryTypes with
        | some qs => qs.contains "ANY"
        | none => false
      { attackType := if amp then "dns_amplification" else rc.1,
        confidence :=
          if amp then JsNum.jmax rc.2.1 (JsNum.fin (8/10)) else rc.2.1,
        reason := rc.2.2, ipDiversityLow := lowDiv,
        sensitiveEndpoints := false, dnsAmplification := amp,
        spamPattern := false, indicators := inds }
  | Protocol.smtp =>
      let spam :=
        JsNum.jlt (JsNum.fin t.suspicious) (rpsOf td) &&
        decide (ipRatioOf td < 2/10)
      { attackType := if spam then "spam" else rc.1,
        confidence :=
          if spam then JsNum.jmax rc.2.1 (JsNum.fin (7/10)) else rc.2.1,
        reason := rc.2.2, ipDiversityLow := lowDiv,
        sensitiveEndpoints := false, dnsAmplification := false,
        spamPattern := spam, indicators := inds }

/-! ### Confidence-range lemmas for the rule classifier -/

lemma jlt_fin_elim {c : ℚ} {x : JsNum} (h : JsNum.jlt (JsNum.fin c) x = true) :
    x = JsNum.inf ∨ ∃ q : ℚ, x = JsNum.fin q ∧ c < q := by
  cases x with
  | fin q => exact Or.inr ⟨q, rfl, by simpa [JsNum.jlt] using h⟩
  | inf => exact Or.inl rfl
  | ninf => simp [JsNum.jlt] at h
  | nan => simp [JsNum.jlt] at h

lemma jlt_fin_mono {c c' : ℚ} (hcc : c ≤ c') {x : JsNum}
    (h : JsNum.jlt (JsNum.fin c) x = false) :
    JsNum.jlt (JsNum.fin c') x = false := by
  cases x with
  | fin q =>
      simp only [JsNum.jlt, decide_eq_false_iff_not] at h ⊢
      intro hq; exact h (lt_of_le_of_lt hcc hq)
  | inf => simp [JsNum.jlt] at h
  | ninf => simp [JsNum.jlt]
  | nan => simp [JsNum.jlt]

lemma In01_jmin_one_of_jlt {c : ℚ} (hc : 0 ≤ c) {x : JsNum}
    (h : JsNum.jlt (JsNum.fin c) x = true) :
    In01 (JsNum.jmin x (JsNum.fin 1)) := by
  rcases jlt_fin_elim h with h' | ⟨q, rfl, hq⟩
  · exact ⟨1, by simp [h', JsNum.jmin], by norm_num⟩
  · exact ⟨min q 1, by simp [JsNum.jmin],
      le_min (le_of_lt (lt_of_le_of_lt hc hq)) zero_le_one, min_le_right _ _⟩

lemma In01_boost {x : JsNum} {d : ℚ} (hd : 0 ≤ d) (h : In01 x) :
    In01 (JsNum.jmin (JsNum.jadd x (JsNum.fin d)) (JsNum.fin 1)) := by
  obtain ⟨q, rfl, hq0, hq1⟩ := h
  exact ⟨min (q + d) 1, by simp [JsNum.jadd, JsNum.jmin],
    le_min (by linarith) zero_le_one, min_le_right _ _⟩

lemma In01_jmax {x : JsNum} {k : ℚ} (h0 : 0 ≤ k) (h1 : k ≤ 1) (h : In01 x) :
    In01 (JsNum.jmax x (JsNum.fin k)) := by
  obtain ⟨q, rfl, hq0, hq1⟩ := h
  exact ⟨max q k, by simp [JsNum.jmax], le_max_of_le_right h0,
    max_le hq1 h1⟩

lemma In01_ddos_conf {a : ℚ} (ha : 0 < a) {rps : JsNum}
    (h : JsNum.jlt (JsNum.fin a) rps = true) :
    In01 (JsNum.jmin (JsNum.jdiv (JsNum.jsub rps (JsNum.fin a))
      (JsNum.fin a)) (JsNum.fin 1)) := by
  rcases jlt_fin_elim h with h' | ⟨q, rfl, hq⟩
  · subst h'
    simp only [JsNum.jsub, JsNum.jneg, JsNum.jadd, JsNum.jdiv]
    rw [if_pos (le_of_lt ha)]
    exact ⟨1, by simp [JsNum.jmin], by norm_num⟩
  · simp only [JsNum.jsub, JsNum.jneg, JsNum.jadd, JsNum.jdiv,
      if_neg (ne_of_gt ha)]
    refine ⟨min ((q + -a) / a) 1, by simp [JsNum.jmin], ?_, min_le_right _ _⟩
    have : 0 ≤ (q + -a) / a := by
      apply div_nonneg _ (le_of_lt ha); linarith
    exact le_min this zero_le_one

lemma In01_susp_conf {s a : ℚ} (hs : 0 < s) (hsa : s < a) {rps : JsNum}
    (h1 : JsNum.jlt (JsNum.fin s) rps = true)
    (h2 : JsNum.jlt (JsNum.fin a) rps = false) :
    In01 (JsNum.jdiv (JsNum.jsub rps (JsNum.fin s))
      (JsNum.fin (a - s))) := by
  rcases jlt_fin_elim h1 with h' | ⟨q, rfl, hq⟩
  · subst h'; simp [JsNum.jlt] at h2
  · have hqa : q ≤ a := by
      simpa [JsNum.jlt, decide_eq_false_iff_not, not_lt] using h2
    have hne : a - s ≠ 0 := by linarith
    simp only [JsNum.jsub, JsNum.jneg, JsNum.jadd, JsNum.jdiv, if_neg hne]
    refine ⟨(q + -s) / (a - s), rfl, ?_, ?_⟩
    · apply div_nonneg _ (by linarith); linarith
    · rw [div_le_one (by linarith)]; linarith

lemma In01_pattern (td : TrafficData) :
    In01 (detectAttackPattern td).confidence := by
  simp only [detectAttackPattern]
  split_ifs with h1 h2 h3
  · exact In01_jmin_one_of_jlt (by norm_num) h1
  · refine ⟨min (6/10 + ((patternIndicators td).length : ℚ) * (1/10)) 1,
      by simp [JsNum.jmin], le_min (by positivity) zero_le_one,
      min_le_right _ _⟩
  · exact In01_jmin_one_of_jlt (by norm_num) h3
  · exact ⟨0, by simp [JsNum.jmin], le_refl 0, zero_le_one⟩

lemma In01_confAfterIpAdjust (td : TrafficData) :
    In01 (confAfterIpAdjust td) := by
  unfold confAfterIpAdjust
  split_ifs with h
  · exact In01_boost (by norm_num) (In01_pattern td)
  · exact In01_pattern td

lemma thresholds_facts (p : Protocol) :
    0 < (thresholdsFor p).suspicious ∧
    (thresholdsFor p).suspicious < (thresholdsFor p).attack := by
  cases p <;> norm_num [thresholdsFor]

lemma In01_rpsClassification (td : TrafficData) :
    In01 (rpsClassification td).2.1 := by
  obtain ⟨hs, hsa⟩ := thresholds_facts td.protocol
  simp only [rpsClassification]
  by_cases h1 : JsNum.jlt (JsNum.fin (thresholdsFor td.protocol).attack)
      (rpsOf td) = true
  · rw [if_pos h1]
    exact In01_ddos_conf (lt_trans hs hsa) h1
  · rw [if_neg h1]
    by_cases h2 : JsNum.jlt (JsNum.fin (thresholdsFor td.protocol).suspicious)
        (rpsOf td) = true
    · rw [if_pos h2]
      exact In01_susp_conf hs hsa h2 (eq_false_of_ne_true h1)
    · rw [if_neg h2]
      exact In01_confAfterIpAdjust td

/-- Shared helper: the final confidence of `simpleRuleBasedClassification`
is a finite value in `[0,1]` for every snapshot. -/
lemma In01_simpleRule (td : TrafficData) :
    In01 (simpleRuleBasedClassification td).confidence := by
  have h := In01_rpsClassification td
  obtain ⟨proto, rc, tw, ips, paths, qts, ts⟩ := td
  cases proto with
  | http =>
      simp only [simpleRuleBasedClassification]
      split_ifs with hs
      · exact In01_boost (by norm_num) h
      · exact h
  | dns =>
      simp only [simpleRuleBasedClassification]
      split_ifs with ha
      · exact In01_jmax (by norm_num) (by norm_num) h
      · exact h
  | smtp =>
      simp only [simpleRuleBasedClassification]
      split_ifs with hsp
      · exact In01_jmax (by norm_num) (by norm_num) h
      · exact h

/-- C1: for every traffic snapshot (any protocol, any requestCount,
timeWindow, uniqueIps, paths, queryTypes), the confidence returned by the
rule-based classifier `simpleRuleBasedClassification` is a finite number
in the closed interval `[0,1]`. -/
theorem simpleRule_confidence_mem_unitInterval (td : TrafficData) :
    ∃ q : ℚ, (simpleRuleBasedClassification td).confidence = JsNum.fin q ∧
      0 ≤ q ∧ q ≤ 1 :=
  In01_simpleRule td

/-- C2: for every dns snapshot whose query-type list contains `"ANY"`,
the classifier returns `attackType = "dns_amplification"` with a finite
confidence in `[0.8, 1]`, regardless of every other field. -/
theorem dns_any_forces_amplification (td : TrafficData)
    (hp : td.protocol = Protocol.dns)
    (hq : ∃ qs, td.queryTypes = some qs ∧ qs.contains "ANY" = true) :
    (simpleRuleBasedClassification td).attackType = "dns_amplification" ∧
    ∃ q : ℚ, (simpleRuleBasedClassification td).confidence = JsNum.fin q ∧
      8/10 ≤ q ∧ q ≤ 1 := by
  obtain ⟨qs, hqs, hany⟩ := hq
  obtain ⟨proto, rcnt, tw, ips, paths, qts, ts⟩ := td
  simp only at hp hqs
  subst hp; subst hqs
  obtain ⟨q, hq', hq0, hq1⟩ :=
    In01_rpsClassification ⟨Protocol.dns, rcnt, tw, ips, paths, some qs, ts⟩
  simp only [simpleRuleBasedClassification, hany, if_true]
  refine ⟨by trivial, max q (8/10), ?_, le_max_right _ _,
    max_le hq1 (by norm_num)⟩
  rw [hq']
  simp [JsNum.jmax]

/-- Concrete dns snapshot: 15 requests in 1 s, all query type `ANY`. -/
def anyQueryTd : TrafficData :=
  ⟨Protocol.dns, 15, 1000, some ["9.9.9.9"], none, some ["ANY"], 0⟩

/-- Witness for C2 at `anyQueryTd`. -/
theorem dns_any_forces_amplification_witness :
    (simpleRuleBasedClassification anyQueryTd).attackType =
      "dns_amplification" ∧
    ∃ q : ℚ, (simpleRuleBasedClassification anyQueryTd).confidence =
      JsNum.fin q ∧ 8/10 ≤ q ∧ q ≤ 1 :=
  dns_any_forces_amplification anyQueryTd rfl ⟨["ANY"], rfl, by decide⟩

/-- C5 counterexample: at `timeWindow = 0` with 15 requests the rps
computation yields `Infinity`, not the guarded `0` the claim asserts. -/
def zeroWindowTd : TrafficData :=
  ⟨Protocol.http, 15, 0, some ["9.9.9.9"], none, none, 0⟩

/-- C5 counterexample: the division by the window duration is not
guarded; at `timeWindow = 0`, `rps` is `Infinity`, not `0`. -/
theorem zeroWindow_rps_not_zero :
    rpsOf zeroWindowTd = JsNum.inf ∧ rpsOf zeroWindowTd ≠ JsNum.fin 0 := by
  norm_num +decide [zeroWindowTd, rpsOf, JsNum.jdiv]

/-- C5 amended: when `timeWindow = 0` the rps division is unguarded and
evaluates (by JS semantics) to `Infinity` when `requestCount > 0` and to
`NaN` when `requestCount = 0`; the classification nevertheless completes
with a finite confidence in `[0,1]`. -/
theorem zeroWindow_unguarded (td : TrafficData) (h : td.timeWindow = 0) :
    (0 < td.requestCount → rpsOf td = JsNum.inf) ∧
    (td.requestCount = 0 → rpsOf td = JsNum.nan) ∧
    ∃ q : ℚ, (simpleRuleBasedClassification td).confidence = JsNum.fin q ∧
      0 ≤ q ∧ q ≤ 1 := by
  have hb : ((td.timeWindow : ℚ) / 1000) = 0 := by rw [h]; norm_num
  refine ⟨?_, ?_, In01_simpleRule td⟩
  · intro hrc
    unfold rpsOf
    rw [hb]
    have : (0 : ℚ) < (td.requestCount : ℚ) := by exact_mod_cast hrc
    simp [JsNum.jdiv, this]
  · intro hrc
    unfold rpsOf
    rw [hb, hrc]
    simp [JsNum.jdiv]

/-- Witness for the amended C5 at `zeroWindowTd`. -/
theorem zeroWindow_unguarded_witness :
    (0 < zeroWindowTd.requestCount → rpsOf zeroWindowTd = JsNum.inf) ∧
    (zeroWindowTd.requestCount = 0 → rpsOf zeroWindowTd = JsNum.nan) ∧
    ∃ q : ℚ, (simpleRuleBasedClassification zeroWindowTd).confidence =
      JsNum.fin q ∧ 0 ≤ q ∧ q ≤ 1 :=
  zeroWindow_unguarded zeroWindowTd rfl

/-- Low-diversity http snapshot: 11 requests from one IP over 60 s, two
distinct non-sensitive paths, so the pattern analysis stays "normal". -/
def lowDivTd : TrafficData :=
  ⟨Protocol.http, 11, 60000, some ["9.9.9.9"], some ["/a", "/b"], none, 0⟩

/-- C6 counterexample: `ipRatio < 0.1` and `requestCount > 10` hold, yet
the classifier returns `attackType = "normal"` with confidence `0.2` —
no rebranding to `"suspicious"` with confidence `0.6` takes place. -/
theorem lowDiversity_no_suspicious_rebrand :
    lowDiversityCond lowDivTd ∧
    (simpleRuleBasedClassification lowDivTd).attackType = "normal" ∧
    (simpleRuleBasedClassification lowDivTd).confidence =
      JsNum.fin (1/5) := by
  norm_num +decide [lowDivTd, simpleRuleBasedClassification,
    rpsClassification, confAfterIpAdjust, detectAttackPattern,
    patternIndicators, calculatePatternScore, rpsOf, ipRatioOf,
    uniqueIpsCount, lowDiversityCond, thresholdsFor, JsNum.jdiv,
    JsNum.jlt, JsNum.jadd, JsNum.jmin, JsNum.jsub, JsNum.jneg,
    JsNum.jmax, allEqHead, strIncludes, charsInclude]

/-- C6 amended: when `ipRatio < 0.1` and `requestCount > 10`, the
classifier only adds `0.2` to the pattern-analysis confidence (capped at
1) before the RPS reclassification; the attack type is not changed by
this step (no "normal" → "suspicious"/0.6 rebranding), the low-diversity
flag is set in the details, and the indicator list is unchanged. -/
theorem lowDiversity_adds_point_two (td : TrafficData)
    (h : lowDiversityCond td) :
    confAfterIpAdjust td =
      JsNum.jmin (JsNum.jadd (detectAttackPattern td).confidence
        (JsNum.fin (2/10))) (JsNum.fin 1) ∧
    (simpleRuleBasedClassification td).ipDiversityLow = true ∧
    (simpleRuleBasedClassification td).indicators =
      (detectAttackPattern td).indicators := by
  refine ⟨by unfold confAfterIpAdjust; rw [if_pos h], ?_, ?_⟩ <;>
    obtain ⟨proto, rcnt, tw, ips, paths, qts, ts⟩ := td <;>
    cases proto <;>
    simp only [simpleRuleBasedClassification] <;>
    simp [decide_eq_true h]

/-- Witness for the amended C6 at `lowDivTd`. -/
theorem lowDiversity_adds_point_two_witness :
    confAfterIpAdjust lowDivTd =
      JsNum.jmin (JsNum.jadd (detectAttackPattern lowDivTd).confidence
        (JsNum.fin (2/10))) (JsNum.fin 1) ∧
    (simpleRuleBasedClassification lowDivTd).ipDiversityLow = true ∧
    (simpleRuleBasedClassification lowDivTd).indicators =
      (detectAttackPattern lowDivTd).indicators :=
  lowDiversity_adds_point_two lowDivTd
    (by norm_num [lowDivTd, lowDiversityCond, ipRatioOf, uniqueIpsCount])

/-- Helper for C10: the http indicator list is nonempty when a tracked
path is sensitive or all tracked paths coincide. -/
lemma patternIndicators_http_ne_nil (rcnt tw : ℕ)
    (ips : Option (List String)) (ts : ℕ) (ps : List String)
    (qts : Option (List String))
    (hind : ps.any (fun p => strIncludes p "admin" || strIncludes p "wp-" ||
        strIncludes p ".php") = true ∨ allEqHead ps = true) :
    0 < (patternIndicators
      ⟨Protocol.http, rcnt, tw, ips, some ps, qts, ts⟩).length := by
  simp only [patternIndicators]
  rcases hind with h | h
  · rw [if_pos h]; simp
  · rw [if_pos h]; simp

/-- C10: for an http snapshot with pattern score at most 0.8 and rps at
most the suspicious threshold (10), if some tracked path contains
"admin", "wp-" or ".php", or all tracked paths are identical, then the
pattern analysis yields `"targeted"` with confidence
`min(0.6 + 0.1 · #indicators, 1)`, and the final classification keeps
`attackType = "targeted"`. -/
theorem http_subthreshold_targeted (td : TrafficData)
    (hp : td.protocol = Protocol.http)
    (hps : JsNum.jlt (JsNum.fin (8/10)) (calculatePatternScore td) = false)
    (hrps : JsNum.jlt (JsNum.fin 10) (rpsOf td) = false)
    (hpaths : ∃ ps, td.paths = some ps ∧
      (ps.any (fun p => strIncludes p "admin" || strIncludes p "wp-" ||
        strIncludes p ".php") = true ∨ allEqHead ps = true)) :
    (detectAttackPattern td).pattern = "targeted" ∧
    (detectAttackPattern td).confidence =
      JsNum.fin (min (6/10 +
        ((detectAttackPattern td).indicators.length : ℚ) * (1/10)) 1) ∧
    (simpleRuleBasedClassification td).attackType = "targeted" := by
  obtain ⟨ps, hqs, hind⟩ := hpaths
  obtain ⟨proto, rcnt, tw, ips, paths, qts, ts⟩ := td
  simp only at hp hqs
  subst hp; subst hqs
  have hlen := patternIndicators_http_ne_nil rcnt tw ips ts ps qts hind
  have hpat : (detectAttackPattern
      ⟨Protocol.http, rcnt, tw, ips, some ps, qts, ts⟩).pattern =
      "targeted" ∧ (detectAttackPattern
      ⟨Protocol.http, rcnt, tw, ips, some ps, qts, ts⟩).confidence =
      JsNum.fin (min (6/10 + ((patternIndicators
        ⟨Protocol.http, rcnt, tw, ips, some ps, qts, ts⟩).length : ℚ)
        * (1/10)) 1) := by
    simp only [detectAttackPattern, hps, Bool.false_eq_true, if_false,
      if_pos hlen]
    exact ⟨by trivial, by simp [JsNum.jmin]⟩
  have hattack : JsNum.jlt (JsNum.fin (thresholdsFor Protocol.http).attack)
      (rpsOf ⟨Protocol.http, rcnt, tw, ips, some ps, qts, ts⟩) = false := by
    exact jlt_fin_mono (by norm_num [thresholdsFor]) hrps
  have hsusp : JsNum.jlt (JsNum.fin (thresholdsFor Protocol.http).suspicious)
      (rpsOf ⟨Protocol.http, rcnt, tw, ips, some ps, qts, ts⟩) = false := by
    exact jlt_fin_mono (by norm_num [thresholdsFor]) hrps
  have hind2 : (detectAttackPattern
      ⟨Protocol.http, rcnt, tw, ips, some ps, qts, ts⟩).indicators =
      patternIndicators ⟨Protocol.http, rcnt, tw, ips, some ps, qts, ts⟩ :=
    rfl
  refine ⟨hpat.1, by rw [hpat.2, hind2], ?_⟩
  simp only [simpleRuleBasedClassification, rpsClassification, hattack,
    hsusp, Bool.false_eq_true, if_false]
  exact hpat.1

/-- Concrete sub-threshold http snapshot hitting both path indicators. -/
def targetedTd : TrafficData :=
  ⟨Protocol.http, 5, 1000, some ["9.9.9.9"], some ["/admin"], none, 0⟩

/-- Witness for C10 at `targetedTd`. -/
theorem http_subthreshold_targeted_witness :
    (detectAttackPattern targetedTd).pattern = "targeted" ∧
    (detectAttackPattern targetedTd).confidence =
      JsNum.fin (min (6/10 +
        ((detectAttackPattern targetedTd).indicators.length : ℚ) * (1/10)) 1) ∧
    (simpleRuleBasedClassification targetedTd).attackType = "targeted" :=
  http_subthreshold_targeted targetedTd rfl
    (by norm_num +decide [targetedTd, calculatePatternScore, rpsOf,
      JsNum.jdiv, JsNum.jlt, JsNum.jsub, JsNum.jneg, JsNum.jadd,
      JsNum.jmax])
    (by norm_num +decide [targetedTd, rpsOf, JsNum.jdiv, JsNum.jlt])
    ⟨["/admin"], rfl, Or.inl (by decide)⟩

/-! ### Traffic analyzer (`src/services/traffic/analyzer.ts`) -/

/-- Protocols handled by `TrafficAnalyzer` (`'HTTP' | 'DNS'`). -/
inductive APro where
  | HTTP
  | DNS
deriving DecidableEq, Repr

/-- A stored traffic log entry (`TrafficLog`): timestamp in ms, protocol
and the optional `requestData.path`. -/
structure TLog where
  timestampMs : ℤ
  protocol : APro
  path : Option String
deriving DecidableEq, Repr

/-- `BurstPeriod` from `src/types`. -/
structure BurstPeriod where
  startMs : ℤ
  endMs : ℤ
  count : ℕ
  duration : ℤ
deriving DecidableEq, Repr

/-- JS `Set.add`: append the element unless already present. -/
def jsSetAdd (l : List String) (x : String) : List String :=
  if x ∈ l then l else l ++ [x]

/-- Loop state of the `for` loop in `calculateMetrics`
(`analyzer.ts` lines 67-103). -/
structure ScanState where
  intervals : List ℤ
  paths : List String
  burstCount : ℕ
  consecutiveBursts : ℕ
  maxConsecutiveBursts : ℕ
  currentBurstStart : Option ℤ
  burstPeriods : List BurstPeriod
deriving DecidableEq, Repr

def initScanState : ScanState := ⟨[], [], 0, 0, 0, none, []⟩

/-- One iteration of the `calculateMetrics` loop body for the pair
`(logs[i-1], logs[i])` (`analyzer.ts` lines 75-103). -/
def scanStep (prev cur : TLog) (st : ScanState) : ScanState :=
  let interval := cur.timestampMs - prev.timestampMs
  let st1 : ScanState :=
    { st with intervals := st.intervals ++ [interval],
              paths := match cur.path with
                       | some p => jsSetAdd st.paths p
                       | none => st.paths }
  if interval < 100 then
    { st1 with
        burstCount := st1.burstCount + 1,
        consecutiveBursts := st1.consecutiveBursts + 1,
        currentBurstStart :=
          match st1.currentBurstStart with
          | none => some prev.timestampMs
          | some s => some s,
        maxConsecutiveBursts :=
          max st1.maxConsecutiveBursts (st1.consecutiveBursts + 1) }
  else
    { st1 with
        burstPeriods :=
          match st1.currentBurstStart with
          | some s =>
              if st1.consecutiveBursts > 5 then
                st1.burstPeriods ++
                  [⟨s, prev.timestampMs, st1.consecutiveBursts,
                    prev.timestampMs - s⟩]
              else st1.burstPeriods
          | none => st1.burstPeriods,
        consecutiveBursts := 0,
        currentBurstStart := none }

/-- The full loop over consecutive log pairs. -/
def scanLogs : TLog → List TLog → ScanState → ScanState
  | _, [], st => st
  | prev, cur :: rest, st => scanLogs cur rest (scanStep prev cur st)

/-- JS `Math.round` on a finite value (round half toward +∞). -/
def jsRound (q : ℚ) : ℤ := ⌊q + 1/2⌋

/-- `TrafficMetrics` as returned by `calculateMetrics`, with the
`attackAnalysis` sub-object flattened into named fields. -/
structure TrafficMetrics where
  requestCount : ℕ
  averageRequestInterval : ℤ
  burstCount : ℕ
  uniquePaths : List String
  suspiciousScore : ℕ
  isAttack : Bool
  attackType : String
  confidence : ℚ
  details : List String
  burstPeriods : List BurstPeriod
deriving DecidableEq, Repr

/-- `calculateMetrics` (`analyzer.ts` lines 48-186). -/
def calculateMetrics (logs : List TLog) : TrafficMetrics :=
  match logs with
  | [] => ⟨0, 0, 0, [], 0, false, "none", 0, [], []⟩
  | first :: rest =>
      let st := scanLogs first rest initScanState
      let avgInterval : ℚ :=
        if st.intervals.length > 0 then
          (st.intervals.sum : ℚ) / (st.intervals.length : ℚ)
        else 0
      let len := rest.length + 1
      let volume : ℕ × List String :=
        if len > 100 then (30, ["High request volume"])
        else if len > 50 then (20, ["Moderate request volume"])
        else (0, [])
      let timing : ℕ × List String :=
        if avgInterval < 50 then (30, ["Extremely rapid requests"])
        else if avgInterval < 100 then (20, ["Very fast requests"])
        else (0, [])
      let burst : ℕ × List String :=
        if st.burstCount > 20 then
          (40, ["High burst count: " ++ toString st.burstCount ++
            " bursts detected"])
        else if st.burstCount > 10 then
          (20, ["Moderate burst activity: " ++ toString st.burstCount ++
            " bursts detected"])
        else (0, [])
      let pathDiversity : ℚ := (st.paths.length : ℚ) / (len : ℚ)
      let patterns : ℕ × List String :=
        if len > 10 ∧ pathDiversity < 1/10 then
          (10, ["Repetitive request patterns"])
        else (0, [])
      let score := volume.1 + timing.1 + burst.1 + patterns.1
      let ta : String × ℚ :=
        if score ≥ 70 then
          (if first.protocol = APro.DNS then "DNS Amplification Attack"
           else if st.maxConsecutiveBursts > 20 then "HTTP Flood Attack"
           else if st.paths.length = 1 then "Targeted Resource Attack"
           else "Distributed HTTP Flood",
           (score : ℚ) / 100)
        else ("none", 0)
      ⟨len, jsRound avgInterval, st.burstCount, st.paths, score,
       decide (score ≥ 70), ta.1, ta.2,
       volume.2 ++ timing.2 ++ burst.2 ++ patterns.2, st.burstPeriods⟩

/-! ### Alert service (`src/services/alerts/alertService.ts`) -/

/-- `AttackAlert` with the fields the alert service touches. -/
structure AttackAlert where
  id : String
  timestampMs : ℤ
  status : String
  sourceIp : String
  protocol : String
  attackType : String
deriving DecidableEq, Repr

/-- The caller-supplied part of an alert (`Omit<AttackAlert, 'id' | 'timestamp'>`
projected onto the key fields). -/
structure AlertInput where
  sourceIp : String
  protocol : String
  attackType : String
deriving DecidableEq, Repr

/-- The `activeAlerts` map, as an ordered association list. -/
abbrev AlertState : Type := List (String × AttackAlert)

/-- `alertKey = sourceIp-protocol-attackType` (`alertService.ts` line 31). -/
def alertKey (inp : AlertInput) : String :=
  inp.sourceIp ++ "-" ++ inp.protocol ++ "-" ++ inp.attackType

/-- `Map.get`: first entry with the given key. -/
def lookupAlert : AlertState → String → Option AttackAlert
  | [], _ => none
  | (k, a) :: rest, key => if k = key then some a else lookupAlert rest key

/-- `Map.set`: replace any entry under `key` with the new alert. -/
def setAlert (st : AlertState) (key : String) (a : AttackAlert) :
    AlertState :=
  (st.filter fun kv => decide (kv.1 ≠ key)) ++ [(key, a)]

/-- `cleanupOldAlerts` (`alertService.ts` lines 61-68): drop alerts with
`now - timestamp > 60000`. -/
def cleanupOldAlerts (st : AlertState) (now : ℤ) : AlertState :=
  st.filter fun kv => decide (¬ now - kv.2.timestampMs > 60000)

/-- A subscriber callback; `Except.error` models a thrown exception. -/
abbrev Subscriber : Type := AttackAlert → Except String Unit

/-- Node `EventEmitter.emit`: listeners run synchronously in registration
order; a throwing listener aborts the loop and the exception propagates.
Returns how many listeners were invoked and the propagated exception. -/
def notifySubscribers : List Subscriber → AttackAlert → ℕ × Option String
  | [], _ => (0, none)
  | f :: rest, a =>
      match f a with
      | Except.error e => (1, some e)
      | Except.ok _ =>
          let r := notifySubscribers rest a
          (r.1 + 1, r.2)

/-- The alert record built by `raiseAlert` (`alertService.ts` lines
40-45): fresh id, `timestamp = now`, `status = 'active'`. -/
def mkAlert (inp : AlertInput) (now : ℤ) (newId : String) : AttackAlert :=
  ⟨newId, now, "active", inp.sourceIp, inp.protocol, inp.attackType⟩

/-- Outcome of one `raiseAlert` call. -/
structure RaiseResult where
  state : AlertState
  emitted : Option AttackAlert
  delivered : ℕ
  thrown : Option String
deriving DecidableEq, Repr

/-- `raiseAlert` (`alertService.ts` lines 30-55): suppress when an alert
for the key exists and is younger than the 60,000 ms cooldown; otherwise
store a fresh active alert, emit it to the subscribers, and (when no
listener throws) clean up expired alerts. -/
def raiseAlert (st : AlertState) (subs : List Subscriber)
    (inp : AlertInput) (now : ℤ) (newId : String) : RaiseResult :=
  let key := alertKey inp
  let suppressed : Bool :=
    match lookupAlert st key with
    | some a => decide (now - a.timestampMs < 60000)
    | none => false
  if suppressed then ⟨st, none, 0, none⟩
  else
    let fullAlert := mkAlert inp now newId
    let st1 := setAlert st key fullAlert
    let r := notifySubscribers subs fullAlert
    match r.2 with
    | some e => ⟨st1, some fullAlert, r.1, some e⟩
    | none => ⟨cleanupOldAlerts st1 now, some fullAlert, r.1, none⟩

/-! ### Aggregator (`src/honeypots/base.ts`, `logTraffic`) -/

/-- `[...new Set(l)]`: deduplicate keeping first occurrences. -/
def jsSetOf (l : List String) : List String := l.foldl jsSetAdd []

/-- `[...new Set([...old, ...new])]` (`base.ts` lines 51 and 54). -/
def mergeAttrValues (old new : List String) : List String :=
  jsSetOf (old ++ new)

/-- `logTraffic` (`base.ts` lines 26-65) restricted to the per-key state
update: create-or-update the `TrafficData` entry, bump `requestCount`,
merge `uniqueIps`, `paths` and `queryTypes` as JS sets. -/
def logTraffic (st : Option TrafficData) (proto : Protocol) (ip : String)
    (reqPaths reqQTs : Option (List String)) (now : ℕ) : TrafficData :=
  let data : TrafficData :=
    match st with
    | none =>
        { protocol := proto, requestCount := 0, timeWindow := 60000,
          uniqueIps := some [ip], paths := reqPaths, queryTypes := reqQTs,
          timestamp := now }
    | some d =>
        { d with uniqueIps := some (jsSetAdd (d.uniqueIps.getD []) ip),
                 timestamp := now }
  let data := { data with requestCount := data.requestCount + 1 }
  let data :=
    match reqPaths with
    | some ps =>
        { data with paths := some (mergeAttrValues (data.paths.getD []) ps) }
    | none => data
  match reqQTs with
  | some qs =>
      let merged := some (mergeAttrValues (data.queryTypes.getD []) qs)
      { data with queryTypes := merged }
  | none => data

/-! ### Theorems on the analyzer -/

/-- An http log entry with no request path, at the given time. -/
def httpLog (t : ℤ) : TLog := ⟨t, APro.HTTP, none⟩

set_option maxRecDepth 4000 in
/-- C7 counterexample: 6 events at 0,50,...,250 ms (all inter-arrival
intervals 50 ms < 100 ms) followed by one event after a 500 ms gap yield
NO recorded `BurstPeriod`: the 6 events produce a streak of only 5 burst
intervals, and the code requires `consecutiveBursts > 5`. -/
theorem six_event_burst_unrecorded :
    (calculateMetrics [httpLog 0, httpLog 50, httpLog 100, httpLog 150,
      httpLog 200, httpLog 250, httpLog 750]).burstPeriods = [] := by
  decide

/-- C7 amended: 7 consecutive events with every inter-arrival interval
strictly below 100 ms, followed by one event after a 500 ms gap, yield
exactly one `BurstPeriod`, whose count is (at least) 6. -/
theorem seven_event_burst_recorded (t0 t1 t2 t3 t4 t5 t6 t7 : ℤ)
    (h1 : t1 - t0 < 100) (h2 : t2 - t1 < 100) (h3 : t3 - t2 < 100)
    (h4 : t4 - t3 < 100) (h5 : t5 - t4 < 100) (h6 : t6 - t5 < 100)
    (h7 : t7 - t6 = 500) :
    (calculateMetrics
      [⟨t0, APro.HTTP, none⟩, ⟨t1, APro.HTTP, none⟩, ⟨t2, APro.HTTP, none⟩,
       ⟨t3, APro.HTTP, none⟩, ⟨t4, APro.HTTP, none⟩, ⟨t5, APro.HTTP, none⟩,
       ⟨t6, APro.HTTP, none⟩, ⟨t7, APro.HTTP, none⟩]).burstPeriods =
      [⟨t0, t6, 6, t6 - t0⟩] ∧
    (calculateMetrics
      [⟨t0, APro.HTTP, none⟩, ⟨t1, APro.HTTP, none⟩, ⟨t2, APro.HTTP, none⟩,
       ⟨t3, APro.HTTP, none⟩, ⟨t4, APro.HTTP, none⟩, ⟨t5, APro.HTTP, none⟩,
       ⟨t6, APro.HTTP, none⟩, ⟨t7, APro.HTTP, none⟩]).burstPeriods.length
      = 1 := by
  have hn7 : ¬ (t7 - t6 < 100) := by omega
  have heq : (calculateMetrics
      [⟨t0, APro.HTTP, none⟩, ⟨t1, APro.HTTP, none⟩, ⟨t2, APro.HTTP, none⟩,
       ⟨t3, APro.HTTP, none⟩, ⟨t4, APro.HTTP, none⟩, ⟨t5, APro.HTTP, none⟩,
       ⟨t6, APro.HTTP, none⟩, ⟨t7, APro.HTTP, none⟩]).burstPeriods =
      [⟨t0, t6, 6, t6 - t0⟩] := by
    simp [calculateMetrics, scanLogs, scanStep, initScanState, h1, h2, h3,
      h4, h5, h6, hn7]
  exact ⟨heq, by rw [heq]; rfl⟩

/-- Witness for the amended C7 at timestamps 0,50,...,300, then 800. -/
theorem seven_event_burst_recorded_witness :
    (calculateMetrics [httpLog 0, httpLog 50, httpLog 100, httpLog 150,
      httpLog 200, httpLog 250, httpLog 300, httpLog 800]).burstPeriods =
      [⟨0, 300, 6, 300⟩] ∧
    (calculateMetrics [httpLog 0, httpLog 50, httpLog 100, httpLog 150,
      httpLog 200, httpLog 250, httpLog 300,
      httpLog 800]).burstPeriods.length = 1 :=
  seven_event_burst_recorded 0 50 100 150 200 250 300 800
    (by decide) (by decide) (by decide) (by decide) (by decide) (by decide)
    (by decide)

/-- C8 counterexample: on an empty log window, `calculateMetrics` reports
attack type `"none"`, not `"normal"` as the claim states. -/
theorem empty_window_attackType_not_normal :
    (calculateMetrics ([] : List TLog)).attackType = "none" ∧
    (calculateMetrics ([] : List TLog)).attackType ≠ "normal" := by
  decide

/-- C8 amended: on an empty log window, `calculateMetrics` returns
(without any error path) the zero-valued snapshot: requestCount,
averageRequestInterval, burstCount and suspiciousScore all 0, no attack,
attack type `"none"`, confidence 0, no details, no burst periods. -/
theorem empty_window_zero_metrics :
    calculateMetrics ([] : List TLog) =
      ⟨0, 0, 0, [], 0, false, "none", 0, [], []⟩ := rfl

/-! ### Theorems on the alert service -/

lemma lookupAlert_append_none {A B : AlertState} {key : String}
    (h : lookupAlert A key = none) :
    lookupAlert (A ++ B) key = lookupAlert B key := by
  induction A with
  | nil => simp
  | cons kv rest ih =>
      obtain ⟨k, a⟩ := kv
      by_cases hk : k = key
      · simp [lookupAlert, hk] at h
      · simp only [List.cons_append, lookupAlert, if_neg hk] at h ⊢
        exact ih h

lemma lookupAlert_filter_self (st : AlertState) (key : String) :
    lookupAlert (st.filter fun kv => decide (kv.1 ≠ key)) key = none := by
  induction st with
  | nil => simp [lookupAlert]
  | cons kv rest ih =>
      obtain ⟨k, a⟩ := kv
      by_cases hk : k = key
      · simpa [List.filter, hk] using ih
      · simpa [List.filter, hk, lookupAlert] using ih

lemma lookupAlert_setAlert (st : AlertState) (key : String)
    (a : AttackAlert) : lookupAlert (setAlert st key a) key = some a := by
  unfold setAlert
  rw [lookupAlert_append_none (lookupAlert_filter_self st key)]
  simp [lookupAlert]

lemma lookupAlert_cleanup {st : AlertState} {now : ℤ} {key : String}
    {a : AttackAlert} (h : lookupAlert st key = some a)
    (hfresh : ¬ now - a.timestampMs > 60000) :
    lookupAlert (cleanupOldAlerts st now) key = some a := by
  induction st with
  | nil => simp [lookupAlert] at h
  | cons kv rest ih =>
      obtain ⟨k, b⟩ := kv
      by_cases hk : k = key
      · rw [lookupAlert, if_pos hk] at h
        obtain rfl : b = a := by injection h
        simp [cleanupOldAlerts, List.filter, hfresh, lookupAlert, hk]
      · rw [lookupAlert, if_neg hk] at h
        by_cases hkeep : ¬ now - b.timestampMs > 60000
        · simpa [cleanupOldAlerts, List.filter, hkeep, lookupAlert, hk]
            using ih h
        · simpa [cleanupOldAlerts, List.filter, hkeep] using ih h

/-- C3: with an alert `a` stored under the key of `inp`, a `raiseAlert`
call strictly less than 60,000 ms after `a.timestampMs` changes nothing
and notifies nobody; a call 60,000 ms or later stores and publishes a
fresh alert with the new id, `timestamp = now` and status `"active"`. -/
theorem raiseAlert_cooldown_gate (st : AlertState) (subs : List Subscriber)
    (inp : AlertInput) (now : ℤ) (newId : String) (a : AttackAlert)
    (ha : lookupAlert st (alertKey inp) = some a) :
    (now - a.timestampMs < 60000 →
       (raiseAlert st subs inp now newId).state = st ∧
       (raiseAlert st subs inp now newId).emitted = none ∧
       (raiseAlert st subs inp now newId).delivered = 0) ∧
    (60000 ≤ now - a.timestampMs →
       (raiseAlert st subs inp now newId).emitted =
         some (mkAlert inp now newId) ∧
       lookupAlert (raiseAlert st subs inp now newId).state (alertKey inp) =
         some (mkAlert inp now newId)) := by
  constructor
  · intro hcool
    simp [raiseAlert, ha, decide_eq_true hcool]
  · intro hge
    have hd : decide (now - a.timestampMs < 60000) = false :=
      decide_eq_false (not_lt.mpr hge)
    simp only [raiseAlert, ha, hd, Bool.false_eq_true, if_false]
    cases hr : (notifySubscribers subs (mkAlert inp now newId)).2 with
    | none =>
        simp only [hr]
        exact ⟨by trivial, lookupAlert_cleanup
          (lookupAlert_setAlert st (alertKey inp) (mkAlert inp now newId))
          (by simp [mkAlert])⟩
    | some e =>
        simp only [hr]
        exact ⟨by trivial, lookupAlert_setAlert st (alertKey inp)
          (mkAlert inp now newId)⟩

/-- A stored active alert raised at time 0 for key `1.2.3.4-http-ddos`. -/
def alertSt0 : AlertState :=
  [("1.2.3.4-http-ddos", ⟨"alert-1", 0, "active", "1.2.3.4", "http", "ddos"⟩)]

/-- The matching alert input. -/
def alertInp0 : AlertInput := ⟨"1.2.3.4", "http", "ddos"⟩

/-- Witness for C3 at `alertSt0`: a call at 59,999 ms is suppressed, a
call at 60,000 ms stores and publishes a fresh alert. -/
theorem raiseAlert_cooldown_gate_witness :
    ((raiseAlert alertSt0 [] alertInp0 59999 "alert-2").state = alertSt0 ∧
     (raiseAlert alertSt0 [] alertInp0 59999 "alert-2").emitted = none ∧
     (raiseAlert alertSt0 [] alertInp0 59999 "alert-2").delivered = 0) ∧
    ((raiseAlert alertSt0 [] alertInp0 60000 "alert-3").emitted =
       some (mkAlert alertInp0 60000 "alert-3") ∧
     lookupAlert (raiseAlert alertSt0 [] alertInp0 60000 "alert-3").state
       (alertKey alertInp0) = some (mkAlert alertInp0 60000 "alert-3")) :=
  ⟨(raiseAlert_cooldown_gate alertSt0 [] alertInp0 59999 "alert-2"
      ⟨"alert-1", 0, "active", "1.2.3.4", "http", "ddos"⟩ (by decide)).1
    (by decide),
   (raiseAlert_cooldown_gate alertSt0 [] alertInp0 60000 "alert-3"
      ⟨"alert-1", 0, "active", "1.2.3.4", "http", "ddos"⟩ (by decide)).2
    (by decide)⟩

/-- A subscriber whose callback throws. -/
def throwingSub : Subscriber := fun _ => Except.error "boom"

/-- A well-behaved subscriber. -/
def okSub : Subscriber := fun _ => Except.ok ()

/-- C4 counterexample: with two subscribers where the first one throws,
only 1 of the 2 callbacks is invoked — the second subscriber never
receives the alert — and the exception propagates out of `raiseAlert`
instead of being caught. -/
theorem subscriber_exception_not_isolated :
    (raiseAlert [] [throwingSub, okSub] alertInp0 0 "alert-1").delivered
      = 1 ∧
    (raiseAlert [] [throwingSub, okSub] alertInp0 0 "alert-1").thrown =
      some "boom" ∧
    ([throwingSub, okSub] : List Subscriber).length = 2 := by
  exact ⟨rfl, rfl, rfl⟩

lemma notifySubscribers_append_error (subs1 subs2 : List Subscriber)
    (f : Subscriber) (a : AttackAlert) (e : String)
    (h1 : ∀ g ∈ subs1, g a = Except.ok ()) (hf : f a = Except.error e) :
    notifySubscribers (subs1 ++ f :: subs2) a =
      (subs1.length + 1, some e) := by
  induction subs1 with
  | nil => simp [notifySubscribers, hf]
  | cons g rest ih =>
      have hg : g a = Except.ok () := h1 g (by simp)
      have ih' := ih fun g' hg' => h1 g' (by simp [hg'])
      simp [notifySubscribers, hg, ih']

/-- C4 amended: when `emit` reaches a throwing subscriber, delivery stops
there (subscribers registered later are not invoked), the exception
propagates out of `raiseAlert`, and the freshly stored alert remains in
the map while the post-emit cleanup is skipped. -/
theorem subscriber_exception_propagates (st : AlertState)
    (subs1 subs2 : List Subscriber) (f : Subscriber) (e : String)
    (inp : AlertInput) (now : ℤ) (newId : String)
    (hnew : lookupAlert st (alertKey inp) = none)
    (h1 : ∀ g ∈ subs1, g (mkAlert inp now newId) = Except.ok ())
    (hf : f (mkAlert inp now newId) = Except.error e) :
    raiseAlert st (subs1 ++ f :: subs2) inp now newId =
      ⟨setAlert st (alertKey inp) (mkAlert inp now newId),
       some (mkAlert inp now newId), subs1.length + 1, some e⟩ := by
  have hemit := notifySubscribers_append_error subs1 subs2 f
    (mkAlert inp now newId) e h1 hf
  simp [raiseAlert, hnew, hemit]

/-- Witness for the amended C4: subscribers `[ok, throwing, ok]` deliver
to 2 callbacks only and the exception escapes. -/
theorem subscriber_exception_propagates_witness :
    raiseAlert [] [okSub, throwingSub, okSub] alertInp0 0 "alert-1" =
      ⟨setAlert [] (alertKey alertInp0) (mkAlert alertInp0 0 "alert-1"),
       some (mkAlert alertInp0 0 "alert-1"), 2, some "boom"⟩ :=
  subscriber_exception_propagates [] [okSub] [okSub] throwingSub "boom"
    alertInp0 0 "alert-1" rfl
    (by intro g hg; rw [List.mem_singleton] at hg; subst hg; rfl) rfl

/-! ### Theorems on the aggregator attribute sets -/

lemma mem_jsSetAdd {l : List String} {x y : String} :
    y ∈ jsSetAdd l x ↔ y ∈ l ∨ y = x := by
  unfold jsSetAdd
  split_ifs with h
  · exact ⟨Or.inl, fun hy => by rcases hy with hy | rfl; exacts [hy, h]⟩
  · simp [List.mem_append]

lemma mem_foldl_jsSetAdd (l acc : List String) (y : String) :
    y ∈ l.foldl jsSetAdd acc ↔ y ∈ acc ∨ y ∈ l := by
  induction l generalizing acc with
  | nil => simp
  | cons x rest ih =>
      simp only [List.foldl_cons, ih, mem_jsSetAdd, List.mem_cons]
      tauto

lemma mem_mergeAttrValues {old new : List String} {y : String} :
    y ∈ mergeAttrValues old new ↔ y ∈ old ∨ y ∈ new := by
  unfold mergeAttrValues jsSetOf
  rw [mem_foldl_jsSetAdd]
  simp [List.mem_append]

/-- A distinct one-character path per index. -/
def attrPath (n : ℕ) : String := String.mk [Char.ofNat (65 + n)]

/-- State after 65 `logTraffic` events for one key, each carrying a
distinct path. -/
def manyPathsState : Option TrafficData :=
  (List.range 65).foldl
    (fun st n =>
      some (logTraffic st Protocol.http "9.9.9.9" (some [attrPath n]) none n))
    none

set_option maxRecDepth 20000 in
/-- C9 counterexample: after 65 events with distinct paths the per-key
attribute set holds 65 elements — there is no 64-element cap and nothing
is dropped. -/
theorem attribute_set_exceeds_64 :
    (manyPathsState.map fun d => (d.paths.getD []).length) = some 65 ∧
    64 < 65 := by
  exact ⟨by decide, by norm_num⟩

/-- C9 amended: `logTraffic` merges attribute values as an uncapped
deduplicated set union — every path supplied by any recorded event (and
every previously stored path) is still in the per-key set afterwards,
regardless of its current size; no value is ever dropped. -/
theorem logTraffic_no_attribute_cap (st : TrafficData) (proto : Protocol)
    (ip : String) (ps : List String) (now : ℕ) (p : String)
    (hp : p ∈ st.paths.getD [] ∨ p ∈ ps) :
    p ∈ ((logTraffic (some st) proto ip (some ps) none now).paths.getD
      []) := by
  simp only [logTraffic, Option.getD_some]
  rw [mem_mergeAttrValues]
  exact hp

/-- Witness for the amended C9. -/
theorem logTraffic_no_attribute_cap_witness :
    "B" ∈ ((logTraffic
      (some ⟨Protocol.http, 1, 60000, some ["9.9.9.9"], some ["A"], none, 0⟩)
      Protocol.http "9.9.9.9" (some ["B"]) none 1).paths.getD []) :=
  logTraffic_no_attribute_cap
    ⟨Protocol.http, 1, 60000, some ["9.9.9.9"], some ["A"], none, 0⟩
    Protocol.http "9.9.9.9" ["B"] 1 "B" (Or.inr (by decide))

end Honeypot
